import Mathlib

/-!
# Carbon Crunch front end (`src/frontend/src/App.js`)

A shallow embedding of the React component `App`: its four state cells, the two
event handlers (`handleFileChange`, `handleSubmit`) and the element tree that the
component returns.  The asynchronous `handleSubmit` is split at its single
network `await` into the part that runs before the request is sent and the part
that runs when the request settles; the outcome of the request is an explicit
argument.
-/

namespace CarbonCrunch

/-! ## JavaScript values -/

/-- Values that `response.json()` can produce, together with `undefined` (the value
of a missing property).  Numbers are the integer-valued ones. -/
inductive JsVal where
  | undefined
  | null
  | bool (b : Bool)
  | num (n : Int)
  | str (s : String)
  | arr (items : List JsVal)
  | obj (fields : List (String × JsVal))

/-- An exception value; only its `message` is ever read (`err.message`). -/
structure JsError where
  message : String

/-- JavaScript truthiness, as used by `!file`, `error && …` and `result && …`. -/
def JsVal.truthy : JsVal → Bool
  | .undefined => false
  | .null => false
  | .bool b => b
  | .num n => n != 0
  | .str s => s != ""
  | .arr _ => true
  | .obj _ => true

/-- Property read `v.key` for the property names the component uses
(`overall_score`, `breakdown`, the six category names, `recommendations`):
reading from `undefined` or `null` throws a `TypeError`; an object yields the
stored value or `undefined`; any other value has no such property. -/
def JsVal.get (v : JsVal) (key : String) : Except JsError JsVal :=
  match v with
  | .undefined => .error ⟨"Cannot read properties of undefined"⟩
  | .null => .error ⟨"Cannot read properties of null"⟩
  | .obj fields => .ok ((fields.lookup key).getD .undefined)
  | _ => .ok .undefined

/-- The loop of `Array.prototype.map`: the callback is applied to every item, in
order, with the index of that item. -/
def mapFrom {α : Type} (callback : JsVal → Nat → α) : Nat → List JsVal → List α
  | _, [] => []
  | index, item :: rest => callback item index :: mapFrom callback (index + 1) rest

/-- Method call `v.map(callback)`: only arrays have a `map` method; reading it from
`undefined` or `null` throws, and calling it on any other value throws. -/
def JsVal.map {α : Type} (v : JsVal) (callback : JsVal → Nat → α) : Except JsError (List α) :=
  match v with
  | .undefined => .error ⟨"Cannot read properties of undefined"⟩
  | .null => .error ⟨"Cannot read properties of null"⟩
  | .arr items => .ok (mapFrom callback 0 items)
  | _ => .error ⟨"map is not a function"⟩

/-! ## Component state -/

/-- An uploaded file as the browser hands it over: a name and its bytes. -/
structure File where
  name : String
  bytes : List Nat

/-- The four `useState` cells of `App`.  `file = none` stands for the falsy values
`null` (initial) and `undefined` (`files[0]` of an empty selection). -/
structure State where
  file : Option File
  result : JsVal
  loading : Bool
  error : String

/-- The state on first render: `useState(null)`, `useState(null)`,
`useState(false)`, the empty string. -/
def State.initial : State :=
  { file := none, result := .null, loading := false, error := "" }

/-! ## Network -/

/-- The request `handleSubmit` passes to `fetch`: the URL, the method and the
entries of the `FormData` body. -/
structure Request where
  url : String
  method : String
  body : List (String × File)

/-- A settled `fetch` response as far as `handleSubmit` looks at it: the `ok` flag
and what `response.text()` and `response.json()` settle to (a value, or a
rejection). -/
structure Response where
  ok : Bool
  text : Except JsError String
  json : Except JsError JsVal

/-! ## Event handlers -/

/-- The handler `handleFileChange`: `setFile(e.target.files[0])`. -/
def handleFileChange (s : State) (files : List File) : State :=
  { s with file := files.head? }

/-- The part of `handleSubmit` that runs synchronously, up to the `await fetch`:
the guard on `file`, then `setLoading(true)`, `setError` of the empty string and the request that
is sent, if any. -/
def handleSubmitStart (s : State) : State × Option Request :=
  match s.file with
  | none => ({ s with error := "Please select a file" }, none)
  | some file =>
    ({ s with loading := true, error := "" },
     some { url := "http://localhost:8000/analyze-code", method := "POST",
            body := [("file", file)] })

/-- The body of the `try` block after the request was sent: `await fetch`,
the `response.ok` test with `throw new Error(await response.text())`, and
`await response.json()`.  An `error` is the exception that reaches `catch`. -/
def tryBlock (fetched : Except JsError Response) : Except JsError JsVal := do
  let response ← fetched
  if !response.ok then
    let text ← response.text
    throw (JsError.mk text)
  let data ← response.json
  pure data

/-- The part of `handleSubmit` that runs once the request has settled:
`setResult(data)` on success, `setError(err.message)` in `catch`, and
`setLoading(false)` in `finally`. -/
def handleSubmitSettle (s : State) (fetched : Except JsError Response) : State :=
  let afterTry : State :=
    match tryBlock fetched with
    | .ok data => { s with result := data }
    | .error err => { s with error := err.message }
  { afterTry with loading := false }

/-- One complete, uninterrupted call of `handleSubmit`; `fetched` is what the
request settles to when one is sent. -/
def handleSubmit (s : State) (fetched : Except JsError Response) : State :=
  match handleSubmitStart s with
  | (s1, none) => s1
  | (s1, some _) => handleSubmitSettle s1 fetched

/-! ## The element tree returned by `App` -/

/-- The two handlers the form refers to. -/
inductive Handler where
  | handleFileChange
  | handleSubmit

/-- Values of JSX attributes. -/
inductive PropVal where
  | str (s : String)
  | bool (b : Bool)
  | num (n : Nat)
  | handler (h : Handler)

/-- A React element tree: literal JSX text, an embedded expression `{v}` holding a
JavaScript value, or an element with its attributes and children. -/
inductive VNode where
  | text (s : String)
  | expr (v : JsVal)
  | elem (tag : String) (props : List (String × PropVal)) (children : List VNode)

/-- The `className` attribute. -/
def className (name : String) : String × PropVal := ("className", .str name)

/-- The file input: `<input type="file" onChange={handleFileChange} accept=".js,.jsx,.py" />`. -/
def fileInput : VNode :=
  .elem "input"
    [("type", .str "file"), ("onChange", .handler .handleFileChange),
     ("accept", .str ".js,.jsx,.py")] []

/-- The submit button: `disabled={loading}` and a label chosen by `loading`. -/
def submitButton (loading : Bool) : VNode :=
  .elem "button" [("type", .str "submit"), ("disabled", .bool loading)]
    [.expr (.str (if loading then "Analyzing..." else "Analyze Code"))]

/-- The upload form `<form onSubmit={handleSubmit}>`. -/
def uploadForm (loading : Bool) : VNode :=
  .elem "form" [("onSubmit", .handler .handleSubmit)] [fileInput, submitButton loading]

/-- The child `{error && <div className="error">{error}</div>}`. -/
def errorView (error : String) : VNode :=
  if (JsVal.str error).truthy then .elem "div" [className "error"] [.expr (.str error)]
  else .expr (.str error)

/-- The block `<div className="score">` around the value of `result.overall_score`. -/
def scoreTree (overall_score : JsVal) : VNode :=
  .elem "div" [className "score"]
    [.text "Overall Score: ", .elem "span" [] [.expr overall_score, .text "/100"]]

/-- The block `<div className="breakdown">` around the values of the six
`result.breakdown.*` expressions. -/
def breakdownTree (naming modularity comments formatting reusability best_practices : JsVal) :
    VNode :=
  .elem "div" [className "breakdown"]
    [.elem "h3" [] [.text "Breakdown:"],
     .elem "ul" []
      [.elem "li" [] [.text "Naming Conventions: ", .expr naming, .text "/10"],
       .elem "li" [] [.text "Function Length/Modularity: ", .expr modularity, .text "/20"],
       .elem "li" [] [.text "Comments/Documentation: ", .expr comments, .text "/20"],
       .elem "li" [] [.text "Formatting/Indentation: ", .expr formatting, .text "/15"],
       .elem "li" [] [.text "Reusability/DRY: ", .expr reusability, .text "/15"],
       .elem "li" [] [.text "Best Practices: ", .expr best_practices, .text "/20"]]]

/-- The callback of `result.recommendations.map`: `<li key={index}>{rec}</li>`. -/
def recommendationItem (rec : JsVal) (index : Nat) : VNode :=
  .elem "li" [("key", .num index)] [.expr rec]

/-- The block `<div className="recommendations">`; the array returned by `map` is
the child list of the `<ul>`. -/
def recommendationsTree (items : List VNode) : VNode :=
  .elem "div" [className "recommendations"]
    [.elem "h3" [] [.text "Recommendations:"], .elem "ul" [] items]

/-- The block `<div className="result">` around its three parts. -/
def resultTree (score breakdown recommendations : VNode) : VNode :=
  .elem "div" [className "result"]
    [.elem "h2" [] [.text "Analysis Results"], score, breakdown, recommendations]

/-- The outer `<div className="App">` with the header and its five children. -/
def appTree (loading : Bool) (error : String) (resultChild : VNode) : VNode :=
  .elem "div" [className "App"]
    [.elem "header" [className "App-header"]
      [.elem "h1" [] [.text "Carbon Crunch"],
       .elem "p" [] [.text "Analyze your code quality"],
       uploadForm loading,
       errorView error,
       resultChild]]

/-- Evaluation of `{result.overall_score}` inside the score block. -/
def scoreView (result : JsVal) : Except JsError VNode := do
  let overall_score ← result.get "overall_score"
  pure (scoreTree overall_score)

/-- Evaluation of the six `{result.breakdown.*}` expressions, in source order,
inside the breakdown block. -/
def breakdownView (result : JsVal) : Except JsError VNode := do
  let naming ← (← result.get "breakdown").get "naming"
  let modularity ← (← result.get "breakdown").get "modularity"
  let comments ← (← result.get "breakdown").get "comments"
  let formatting ← (← result.get "breakdown").get "formatting"
  let reusability ← (← result.get "breakdown").get "reusability"
  let best_practices ← (← result.get "breakdown").get "best_practices"
  pure (breakdownTree naming modularity comments formatting reusability best_practices)

/-- Evaluation of `{result.recommendations.map(…)}` inside the recommendations block. -/
def recommendationsView (result : JsVal) : Except JsError VNode := do
  let items ← (← result.get "recommendations").map recommendationItem
  pure (recommendationsTree items)

/-- The child `{result && (<div className="result">…</div>)}`: a falsy `result` is
itself the child; otherwise the three blocks are built in source order. -/
def resultView (result : JsVal) : Except JsError VNode :=
  if result.truthy then do
    let score ← scoreView result
    let breakdown ← breakdownView result
    let recommendations ← recommendationsView result
    pure (resultTree score breakdown recommendations)
  else pure (.expr result)

/-- The component `App`: the element tree it returns for a state, or the exception
thrown while building it. -/
def App (s : State) : Except JsError VNode := do
  let resultChild ← resultView s.result
  pure (appTree s.loading s.error resultChild)

/-! ## Reading the element tree -/

/-- The children of an element (none for text and expressions). -/
def VNode.children : VNode → List VNode
  | .elem _ _ children => children
  | _ => []

/-- The value of an attribute of an element. -/
def VNode.prop (node : VNode) (name : String) : Option PropVal :=
  match node with
  | .elem _ props _ => props.lookup name
  | _ => none

/-- The node reached by following child positions from a node. -/
def VNode.descend (node : VNode) : List Nat → Option VNode
  | [] => some node
  | i :: path =>
    match node.children.get? i with
    | some child => child.descend path
    | none => none

/-- Decimal digits read left to right. -/
def readDigits : List Char → Nat → Option Nat
  | [], acc => some acc
  | c :: cs, acc => if c.isDigit then readDigits cs (acc * 10 + (c.toNat - 48)) else none

/-- The number `N` in a literal text of the form `/N`. -/
def denominator (suffix : String) : Option Nat :=
  match suffix.data with
  | '/' :: d :: ds => readDigits (d :: ds) 0
  | _ => none

/-- What a line `{value}/N` shows: the value and the number after the slash. -/
def valueOutOf : List VNode → Option (JsVal × Nat)
  | [.expr value, .text suffix] => (denominator suffix).map (fun n => (value, n))
  | _ => none

/-- The overall score line of a rendered `App`: the content of the `<span>` in the
score block. -/
def overallShown (view : VNode) : Option (JsVal × Nat) :=
  match view.descend [0, 4, 1, 1] with
  | some span => valueOutOf span.children
  | none => none

/-- The `<li>` items of the breakdown list of a rendered `App`. -/
def breakdownItems (view : VNode) : List VNode :=
  match view.descend [0, 4, 2, 1] with
  | some ul => ul.children
  | none => []

/-- What one breakdown item shows: its label, the value and the cap after the slash. -/
def entryShown : VNode → Option (String × JsVal × Nat)
  | .elem "li" _ (.text label :: rest) => (valueOutOf rest).map (fun p => (label, p.1, p.2))
  | _ => none

/-- The `<li>` items of the recommendations list of a rendered `App`. -/
def recommendationItems (view : VNode) : List VNode :=
  match view.descend [0, 4, 3, 1] with
  | some ul => ul.children
  | none => []

/-- The content of a recommendation item. -/
def itemShown : VNode → Option JsVal
  | .elem "li" _ [.expr rec] => some rec
  | _ => none

/-- The submit button of a rendered `App`. -/
def submitButtonOf (view : VNode) : Option VNode := view.descend [0, 2, 1]

/-- The file input of a rendered `App`. -/
def fileInputOf (view : VNode) : Option VNode := view.descend [0, 2, 0]

/-- Splits a list of characters at every comma. -/
def splitComma : List Char → List (List Char)
  | [] => [[]]
  | c :: cs =>
    if c = ',' then [] :: splitComma cs
    else
      match splitComma cs with
      | [] => [[c]]
      | token :: tokens => (c :: token) :: tokens

/-- The file extensions named by the `accept` attribute of an input element: its
comma-separated tokens. -/
def acceptedExtensions (input : VNode) : List String :=
  match input.prop "accept" with
  | some (.str accept) => (splitComma accept.data).map String.mk
  | _ => []

/-- Modelled from the spec: the request contract's accepted extensions
(`.js`, `.jsx`, `.py`); the engine that owns the contract is not part of the
front end. -/
def contractExtensions : List String := [".js", ".jsx", ".py"]

/-- Modelled from the spec: the six category caps of the response contract, in the
order naming, modularity, comments, formatting, reusability, best_practices. -/
def contractCaps : List (String × Nat) :=
  [("naming", 10), ("modularity", 20), ("comments", 20), ("formatting", 15),
   ("reusability", 15), ("best_practices", 20)]

/-- The caps shown next to the breakdown values of a rendered `App`, in order. -/
def capsShown (view : VNode) : List Nat :=
  (breakdownItems view).filterMap (fun li => (entryShown li).map (fun e => e.2.2))

/-- The value and cap shown by each breakdown item of a rendered `App`, in order. -/
def breakdownShown (view : VNode) : List (Option (JsVal × Nat)) :=
  (breakdownItems view).map (fun li => (entryShown li).map Prod.snd)

/-- The integer carried by a numeric value. -/
def JsVal.toInt? : JsVal → Option Int
  | .num n => some n
  | _ => none

/-- The number shown as overall score by a rendered `App`. -/
def overallValue (view : VNode) : Option Int :=
  (overallShown view).bind (fun shown => shown.1.toInt?)

/-- The numbers shown as breakdown values by a rendered `App`, in order. -/
def breakdownValues (view : VNode) : List (Option Int) :=
  (breakdownShown view).map (fun entry => entry.bind (fun shown => shown.1.toInt?))

/-- The sum of the breakdown numbers shown by a rendered `App`. -/
def breakdownTotal (view : VNode) : Option Int :=
  (breakdownValues view).foldr (fun value total => value.bind (fun a => total.map (fun b => a + b)))
    (some 0)

/-- Whether a shown breakdown entry is a number between 0 and the cap shown with it. -/
def withinCap : Option (JsVal × Nat) → Bool
  | some (.num value, cap) => decide (0 ≤ value) && decide (value ≤ (cap : Int))
  | _ => false

/-! ## Sessions -/

/-- What can happen to a mounted `App`: the user picks files, the form is
submitted, or the request in flight settles. -/
inductive Event where
  | fileChange (files : List File)
  | submit
  | settle (fetched : Except JsError Response)

/-- A running `App`: its state and the requests sent but not yet settled. -/
structure Session where
  state : State
  inFlight : List Request

/-- The session right after the first render. -/
def Session.initial : Session := { state := State.initial, inFlight := [] }

/-- Whether the form can be submitted: the submit button the state renders is not
`disabled`. -/
def submitEnabled (s : State) : Bool :=
  match (submitButton s.loading).prop "disabled" with
  | some (.bool true) => false
  | _ => true

/-- One event.  `submit` needs the submit button to be enabled and runs
`handleSubmit` up to its `await`; `settle` needs a request in flight and runs the
rest of `handleSubmit` on the state of that moment. -/
def Session.step (σ : Session) : Event → Option Session
  | .fileChange files => some { σ with state := handleFileChange σ.state files }
  | .submit =>
    if submitEnabled σ.state then
      some { state := (handleSubmitStart σ.state).1,
             inFlight := σ.inFlight ++ (handleSubmitStart σ.state).2.toList }
    else none
  | .settle fetched =>
    match σ.inFlight with
    | [] => none
    | _ :: rest => some { state := handleSubmitSettle σ.state fetched, inFlight := rest }

/-- A sequence of events, from left to right. -/
def Session.run (σ : Session) : List Event → Option Session
  | [] => some σ
  | event :: events =>
    match σ.step event with
    | some next => next.run events
    | none => none

/-! ## Sample data -/

/-- A source file used in the examples. -/
def sampleFile : File := { name := "main.py", bytes := [112, 97, 115, 115, 10] }

/-- The `breakdown` of the sample report. -/
def sampleBreakdown : List (String × JsVal) :=
  [("naming", .num 8), ("modularity", .num 17), ("comments", .num 15),
   ("formatting", .num 15), ("reusability", .num 10), ("best_practices", .num 20)]

/-- The `recommendations` of the sample report. -/
def sampleRecommendations : List JsVal := [.str "Add docstrings", .str "Avoid duplication"]

/-- The fields of the sample report. -/
def sampleFields : List (String × JsVal) :=
  [("overall_score", .num 85), ("breakdown", .obj sampleBreakdown),
   ("recommendations", .arr sampleRecommendations)]

/-- A report that satisfies the response contract. -/
def sampleReport : JsVal := .obj sampleFields

/-- A successful response carrying `data` as its JSON body. -/
def okResponse (data : JsVal) : Except JsError Response :=
  .ok { ok := true, text := .ok "", json := .ok data }

/-- The state after a file was picked on first render. -/
def fileChosen : State := handleFileChange State.initial [sampleFile]

/-- The state in which the sample report is displayed: a file was picked and
submitted, and the backend answered with the sample report. -/
def reportShown : State := handleSubmit fileChosen (okResponse sampleReport)

/-- A response body whose `overall_score` (90) differs from the sum of its six
breakdown values (85). -/
def driftReport : JsVal :=
  .obj [("overall_score", .num 90), ("breakdown", .obj sampleBreakdown),
        ("recommendations", .arr sampleRecommendations)]

/-- A response body whose `naming` value (11) exceeds its cap and whose `modularity`
value is negative. -/
def outOfRangeReport : JsVal :=
  .obj [("overall_score", .num 80),
        ("breakdown", .obj [("naming", .num 11), ("modularity", .num (-1)), ("comments", .num 20),
                            ("formatting", .num 15), ("reusability", .num 15),
                            ("best_practices", .num 20)]),
        ("recommendations", .arr [])]

/-- A response with status not ok whose body is the text `detail`. -/
def failedResponse (detail : String) : Except JsError Response :=
  .ok { ok := false, text := .ok detail, json := .error ⟨"Unexpected token"⟩ }

/-- The state after the displayed sample report was followed by a submission that
the backend refused: the report is still held, next to the error text. -/
def afterFailure : State := handleSubmit reportShown (failedResponse "Unsupported file type")

/-! ## Auxiliary facts about rendering -/

theorem ok_bind {α β : Type} (a : α) (k : α → Except JsError β) :
    ((Except.ok a : Except JsError α) >>= k) = k a := rfl

theorem except_bind_ok {α β : Type} {m : Except JsError α} {k : α → Except JsError β} {b : β}
    (h : (m >>= k) = .ok b) : ∃ a, m = .ok a ∧ k a = .ok b := by
  cases m with
  | error e => cases h
  | ok a => exact ⟨a, rfl, h⟩

theorem scoreView_ok {result : JsVal} {node : VNode} (h : scoreView result = .ok node) :
    ∃ overall, result.get "overall_score" = .ok overall ∧ node = scoreTree overall := by
  obtain ⟨overall, h1, h2⟩ := except_bind_ok h
  exact ⟨overall, h1, (Except.ok.inj h2).symm⟩

theorem breakdownView_ok {result : JsVal} {node : VNode} (h : breakdownView result = .ok node) :
    ∃ breakdown n m c f u p, result.get "breakdown" = .ok breakdown ∧
      breakdown.get "naming" = .ok n ∧ breakdown.get "modularity" = .ok m ∧
      breakdown.get "comments" = .ok c ∧ breakdown.get "formatting" = .ok f ∧
      breakdown.get "reusability" = .ok u ∧ breakdown.get "best_practices" = .ok p ∧
      node = breakdownTree n m c f u p := by
  unfold breakdownView at h
  obtain ⟨breakdown, hb, h⟩ := except_bind_ok h
  simp only [hb, ok_bind] at h
  obtain ⟨n, hn, h⟩ := except_bind_ok h
  obtain ⟨m, hm, h⟩ := except_bind_ok h
  obtain ⟨c, hc, h⟩ := except_bind_ok h
  obtain ⟨f, hf, h⟩ := except_bind_ok h
  obtain ⟨u, hu, h⟩ := except_bind_ok h
  obtain ⟨p, hp, h⟩ := except_bind_ok h
  exact ⟨breakdown, n, m, c, f, u, p, hb, hn, hm, hc, hf, hu, hp, (Except.ok.inj h).symm⟩

theorem map_ok {α : Type} {v : JsVal} {callback : JsVal → Nat → α} {out : List α}
    (h : v.map callback = .ok out) : ∃ items, v = .arr items ∧ out = mapFrom callback 0 items := by
  cases v with
  | arr items => exact ⟨items, rfl, (Except.ok.inj h).symm⟩
  | _ => cases h

theorem recommendationsView_ok {result : JsVal} {node : VNode}
    (h : recommendationsView result = .ok node) :
    ∃ recs, result.get "recommendations" = .ok (.arr recs) ∧
      node = recommendationsTree (mapFrom recommendationItem 0 recs) := by
  unfold recommendationsView at h
  obtain ⟨v, hv, h⟩ := except_bind_ok h
  obtain ⟨items, hi, h⟩ := except_bind_ok h
  obtain ⟨recs, rfl, rfl⟩ := map_ok hi
  exact ⟨recs, hv, (Except.ok.inj h).symm⟩

theorem resultView_ok_truthy {result : JsVal} {node : VNode} (ht : result.truthy = true)
    (h : resultView result = .ok node) :
    ∃ score breakdown recommendations, scoreView result = .ok score ∧
      breakdownView result = .ok breakdown ∧ recommendationsView result = .ok recommendations ∧
      node = resultTree score breakdown recommendations := by
  unfold resultView at h
  rw [if_pos ht] at h
  obtain ⟨score, hs, h⟩ := except_bind_ok h
  obtain ⟨breakdown, hb, h⟩ := except_bind_ok h
  obtain ⟨recommendations, hr, h⟩ := except_bind_ok h
  exact ⟨score, breakdown, recommendations, hs, hb, hr, (Except.ok.inj h).symm⟩

theorem App_ok {s : State} {view : VNode} (h : App s = .ok view) :
    ∃ resultChild, resultView s.result = .ok resultChild ∧
      view = appTree s.loading s.error resultChild := by
  obtain ⟨child, hc, h⟩ := except_bind_ok h
  exact ⟨child, hc, (Except.ok.inj h).symm⟩

theorem get_obj (fields : List (String × JsVal)) (key : String) :
    (JsVal.obj fields).get key = .ok ((fields.lookup key).getD .undefined) := rfl

/-- Rendering of a state whose `result` is an object with an object `breakdown` and
an array `recommendations`: every expression evaluates and the tree is built. -/
theorem App_report {s : State} {fields bfields : List (String × JsVal)} {recs : List JsVal}
    (hres : s.result = .obj fields)
    (hbd : fields.lookup "breakdown" = some (.obj bfields))
    (hrecs : fields.lookup "recommendations" = some (.arr recs)) :
    App s = .ok (appTree s.loading s.error
      (resultTree (scoreTree ((fields.lookup "overall_score").getD .undefined))
        (breakdownTree ((bfields.lookup "naming").getD .undefined)
          ((bfields.lookup "modularity").getD .undefined)
          ((bfields.lookup "comments").getD .undefined)
          ((bfields.lookup "formatting").getD .undefined)
          ((bfields.lookup "reusability").getD .undefined)
          ((bfields.lookup "best_practices").getD .undefined))
        (recommendationsTree (mapFrom recommendationItem 0 recs)))) := by
  simp only [App, resultView, scoreView, breakdownView, recommendationsView, hres, get_obj,
    hbd, hrecs, Option.getD_some, JsVal.truthy, JsVal.map, if_true, ok_bind]
  rfl

theorem overallShown_appTree (loading : Bool) (error : String) (overall : JsVal)
    (breakdown recommendations : VNode) :
    overallShown (appTree loading error (resultTree (scoreTree overall) breakdown recommendations))
      = some (overall, 100) := by
  rfl

theorem breakdownItems_appTree (loading : Bool) (error : String) (score recommendations : VNode)
    (n m c f u p : JsVal) :
    (breakdownItems (appTree loading error
        (resultTree score (breakdownTree n m c f u p) recommendations))).map entryShown
      = [some ("Naming Conventions: ", n, 10), some ("Function Length/Modularity: ", m, 20),
         some ("Comments/Documentation: ", c, 20), some ("Formatting/Indentation: ", f, 15),
         some ("Reusability/DRY: ", u, 15), some ("Best Practices: ", p, 20)] := by
  rfl

theorem recommendationItems_appTree (loading : Bool) (error : String)
    (score breakdown : VNode) (items : List VNode) :
    recommendationItems (appTree loading error
        (resultTree score breakdown (recommendationsTree items))) = items := by
  rfl

theorem itemShown_mapFrom (recs : List JsVal) (start : Nat) :
    (mapFrom recommendationItem start recs).map itemShown = recs.map some := by
  induction recs generalizing start with
  | nil => rfl
  | cons rec rest ih =>
    show itemShown (recommendationItem rec start) :: _ = _
    rw [ih (start + 1)]
    rfl

theorem get?_mapFrom {α : Type} (callback : JsVal → Nat → α) (recs : List JsVal)
    (start i : Nat) :
    (mapFrom callback start recs).get? i = (recs.get? i).map (fun rec => callback rec (start + i)) := by
  induction recs generalizing start i with
  | nil => rfl
  | cons rec rest ih =>
    cases i with
    | zero => rfl
    | succ j =>
      show (mapFrom callback (start + 1) rest).get? j = _
      rw [ih (start + 1) j]
      simp [Nat.add_assoc, Nat.add_comm 1 j]

theorem length_mapFrom {α : Type} (callback : JsVal → Nat → α) (recs : List JsVal) (start : Nat) :
    (mapFrom callback start recs).length = recs.length := by
  induction recs generalizing start with
  | nil => rfl
  | cons rec rest ih => simp [mapFrom, ih]

/-! ## The displayed contract -/

/-- C1: whenever `App` renders a result, the caps it shows next to the six
breakdown values are 10, 20, 20, 15, 15, 20, in that order; they sum to 100, and
100 is the number shown after the slash of the overall score. -/
theorem category_maxima_sum_to_denominator (s : State) (view : VNode)
    (hview : App s = .ok view) (hres : s.result.truthy = true) :
    capsShown view = [10, 20, 20, 15, 15, 20] ∧ (capsShown view).sum = 100 ∧
      (overallShown view).map Prod.snd = some (capsShown view).sum := by
  obtain ⟨child, hchild, rfl⟩ := App_ok hview
  obtain ⟨score, breakdown, recommendations, hs, hb, _, rfl⟩ := resultView_ok_truthy hres hchild
  obtain ⟨overall, _, rfl⟩ := scoreView_ok hs
  obtain ⟨bd, n, m, c, f, u, p, _, _, _, _, _, _, _, rfl⟩ := breakdownView_ok hb
  exact ⟨rfl, rfl, rfl⟩

theorem category_maxima_sum_to_denominator_witness :
    App reportShown =
        .ok (appTree false "" (resultTree (scoreTree (.num 85))
          (breakdownTree (.num 8) (.num 17) (.num 15) (.num 15) (.num 10) (.num 20))
          (recommendationsTree [recommendationItem (.str "Add docstrings") 0,
            recommendationItem (.str "Avoid duplication") 1]))) ∧
      reportShown.result.truthy = true ∧
      capsShown (appTree false "" (resultTree (scoreTree (.num 85))
          (breakdownTree (.num 8) (.num 17) (.num 15) (.num 15) (.num 10) (.num 20))
          (recommendationsTree [recommendationItem (.str "Add docstrings") 0,
            recommendationItem (.str "Avoid duplication") 1]))) = [10, 20, 20, 15, 15, 20] :=
  ⟨rfl, rfl, (category_maxima_sum_to_denominator reportShown _ rfl rfl).1⟩

/-- C2: for every report (an object with an array of recommendations) whose
`breakdown` object has all six keys, `App` renders, and its breakdown list has
exactly six items which show, in the order naming, modularity, comments,
formatting, reusability, best_practices, the value stored under that key together
with that category's cap of the response contract. -/
theorem breakdown_rendered_in_contract_order (s : State)
    (fields bfields : List (String × JsVal)) (recs : List JsVal)
    (hres : s.result = .obj fields)
    (hbd : fields.lookup "breakdown" = some (.obj bfields))
    (hkeys : ∀ kc ∈ contractCaps, (bfields.lookup kc.1).isSome = true)
    (hrecs : fields.lookup "recommendations" = some (.arr recs)) :
    ∃ view, App s = .ok view ∧ (breakdownItems view).length = 6 ∧
      breakdownShown view =
        contractCaps.map (fun kc => (bfields.lookup kc.1).map (fun value => (value, kc.2))) := by
  refine ⟨_, App_report hres hbd hrecs, rfl, ?_⟩
  have key : ∀ k cap, (k, cap) ∈ contractCaps →
      some ((bfields.lookup k).getD .undefined, cap)
        = (bfields.lookup k).map (fun value => (value, cap)) := by
    intro k cap hk
    have := hkeys (k, cap) hk
    cases hl : bfields.lookup k with
    | none => rw [hl] at this; cases this
    | some v => rfl
  simp only [breakdownShown, breakdownItems_appTree, List.map_map, contractCaps, List.map_cons,
    List.map_nil]
  rw [← key "naming" 10 (by simp [contractCaps]), ← key "modularity" 20 (by simp [contractCaps]),
    ← key "comments" 20 (by simp [contractCaps]), ← key "formatting" 15 (by simp [contractCaps]),
    ← key "reusability" 15 (by simp [contractCaps]),
    ← key "best_practices" 20 (by simp [contractCaps])]
  rfl

theorem breakdown_rendered_in_contract_order_witness :
    ∃ view, App reportShown = .ok view ∧ (breakdownItems view).length = 6 ∧
      breakdownShown view =
        [some (.num 8, 10), some (.num 17, 20), some (.num 15, 20), some (.num 15, 15),
         some (.num 10, 15), some (.num 20, 20)] :=
  breakdown_rendered_in_contract_order reportShown sampleFields sampleBreakdown
    sampleRecommendations rfl rfl (by decide) rfl

/-- C5: for every report (an object with a non-null `breakdown` object and an array
`recommendations`), `App` renders, and the rendered recommendations list has as
many items as the array, the i-th item holding the i-th recommendation and
nothing else, with key i. -/
theorem recommendations_rendered_verbatim (s : State)
    (fields bfields : List (String × JsVal)) (recs : List JsVal)
    (hres : s.result = .obj fields)
    (hbd : fields.lookup "breakdown" = some (.obj bfields))
    (hrecs : fields.lookup "recommendations" = some (.arr recs)) :
    ∃ view, App s = .ok view ∧ (recommendationItems view).length = recs.length ∧
      (recommendationItems view).map itemShown = recs.map some ∧
      ∀ i, (recommendationItems view).get? i =
        (recs.get? i).map (fun rec => recommendationItem rec i) := by
  refine ⟨_, App_report hres hbd hrecs, ?_, ?_, ?_⟩
  · rw [recommendationItems_appTree, length_mapFrom]
  · rw [recommendationItems_appTree, itemShown_mapFrom]
  · intro i
    rw [recommendationItems_appTree]
    have h := get?_mapFrom recommendationItem recs 0 i
    simpa using h

theorem recommendations_rendered_verbatim_witness :
    ∃ view, App reportShown = .ok view ∧
      (recommendationItems view).length = sampleRecommendations.length ∧
      (recommendationItems view).map itemShown = sampleRecommendations.map some ∧
      ∀ i, (recommendationItems view).get? i =
        (sampleRecommendations.get? i).map (fun rec => recommendationItem rec i) :=
  recommendations_rendered_verbatim reportShown sampleFields sampleBreakdown
    sampleRecommendations rfl rfl rfl

/-- C7: the `accept` attribute of the file input that every rendered `App` contains
names exactly the extensions `.js`, `.jsx` and `.py`, which are the extensions of
the request contract. -/
theorem accepted_extensions_match_contract (loading : Bool) (error : String)
    (resultChild : VNode) (extension : String) :
    fileInputOf (appTree loading error resultChild) = some fileInput ∧
      acceptedExtensions fileInput = [".js", ".jsx", ".py"] ∧
      (extension ∈ acceptedExtensions fileInput ↔ extension ∈ contractExtensions) := by
  refine ⟨rfl, by decide, ?_⟩
  have h : acceptedExtensions fileInput = contractExtensions := by decide
  rw [h]

/-! ## Reports held in the result state -/

/-- A submission with a file selected that the backend answers with an ok response
and a parsable body stores that body and clears `error` and `loading`. -/
theorem handleSubmit_success {s : State} {f : File} {resp : Response} {data : JsVal}
    (hfile : s.file = some f) (hok : resp.ok = true) (hjson : resp.json = .ok data) :
    handleSubmit s (.ok resp) =
      { file := s.file, result := data, loading := false, error := "" } := by
  simp [handleSubmit, handleSubmitStart, handleSubmitSettle, tryBlock, hfile, hok, hjson,
    bind, Except.bind, pure, Except.pure]

/-- C3 fails as stated: the backend answers with overall_score 90 and breakdown
values 8, 17, 15, 15, 10, 20 (sum 85); `App` stores the body and shows 90 next to
breakdown values that sum to 85. -/
theorem overall_equals_breakdown_sum_counterexample :
    ∃ view, App (handleSubmit fileChosen (okResponse driftReport)) = .ok view ∧
      (handleSubmit fileChosen (okResponse driftReport)).result = driftReport ∧
      overallValue view = some 90 ∧
      breakdownValues view = [some 8, some 17, some 15, some 15, some 10, some 20] ∧
      breakdownTotal view = some 85 ∧
      overallValue view ≠ breakdownTotal view :=
  ⟨_, rfl, rfl, rfl, rfl, rfl, by decide⟩

/-- C3 as amended: a report received from the backend is stored unchanged, the
overall score shown is its `overall_score` field and the six breakdown values shown
are its six `breakdown` fields; the score shown equals the sum of the six values
shown exactly when the received `overall_score` equals the sum of the received
breakdown values. -/
theorem overall_shown_as_received (s : State) (f : File) (resp : Response)
    (fields bfields : List (String × JsVal)) (recs : List JsVal) (t a b c d e g : Int)
    (hfile : s.file = some f) (hok : resp.ok = true) (hjson : resp.json = .ok (.obj fields))
    (hoverall : fields.lookup "overall_score" = some (.num t))
    (hbd : fields.lookup "breakdown" = some (.obj bfields))
    (hrecs : fields.lookup "recommendations" = some (.arr recs))
    (ha : bfields.lookup "naming" = some (.num a))
    (hb : bfields.lookup "modularity" = some (.num b))
    (hc : bfields.lookup "comments" = some (.num c))
    (hd : bfields.lookup "formatting" = some (.num d))
    (he : bfields.lookup "reusability" = some (.num e))
    (hg : bfields.lookup "best_practices" = some (.num g)) :
    ∃ view, App (handleSubmit s (.ok resp)) = .ok view ∧
      (handleSubmit s (.ok resp)).result = .obj fields ∧
      overallValue view = some t ∧
      breakdownValues view = [some a, some b, some c, some d, some e, some g] ∧
      (overallValue view = breakdownTotal view ↔ t = a + b + c + d + e + g) := by
  have hstate := handleSubmit_success hfile hok hjson
  have hresult : (handleSubmit s (.ok resp)).result = .obj fields := by rw [hstate]
  refine ⟨_, App_report hresult hbd hrecs, hresult, ?_, ?_, ?_⟩
  · rw [hoverall]; rfl
  · rw [ha, hb, hc, hd, he, hg]; rfl
  · rw [hoverall, ha, hb, hc, hd, he, hg]
    show some t = some (a + (b + (c + (d + (e + (g + 0)))))) ↔ _
    constructor
    · intro h
      have := Option.some.inj h
      omega
    · intro h
      rw [h]
      congr 1
      omega

theorem overall_shown_as_received_witness :
    ∃ view, App reportShown = .ok view ∧ reportShown.result = .obj sampleFields ∧
      overallValue view = some 85 ∧
      breakdownValues view = [some 8, some 17, some 15, some 15, some 10, some 20] ∧
      (overallValue view = breakdownTotal view ↔ (85 : Int) = 8 + 17 + 15 + 15 + 10 + 20) :=
  overall_shown_as_received fileChosen sampleFile
    { ok := true, text := .ok "", json := .ok sampleReport }
    sampleFields sampleBreakdown sampleRecommendations 85 8 17 15 15 10 20
    rfl rfl rfl rfl rfl rfl rfl rfl rfl rfl rfl rfl

/-- C4 fails as stated: the backend answers with naming 11 and modularity -1; `App`
stores the body and shows 11 next to the cap 10 and -1 next to the cap 20. -/
theorem breakdown_values_clamped_counterexample :
    ∃ view, App (handleSubmit fileChosen (okResponse outOfRangeReport)) = .ok view ∧
      (handleSubmit fileChosen (okResponse outOfRangeReport)).result = outOfRangeReport ∧
      breakdownShown view =
        [some (.num 11, 10), some (.num (-1), 20), some (.num 20, 20), some (.num 15, 15),
         some (.num 15, 15), some (.num 20, 20)] ∧
      (breakdownShown view).map withinCap = [false, false, true, true, true, true] :=
  ⟨_, rfl, rfl, rfl, by decide⟩

/-- C4 as amended: a report received from the backend is stored unchanged and each
of the six breakdown values shown is the received value, next to its cap; every
shown value lies between 0 and its cap exactly when every received value does. -/
theorem breakdown_values_shown_as_received (s : State) (f : File) (resp : Response)
    (fields bfields : List (String × JsVal)) (recs : List JsVal) (a b c d e g : Int)
    (hfile : s.file = some f) (hok : resp.ok = true) (hjson : resp.json = .ok (.obj fields))
    (hbd : fields.lookup "breakdown" = some (.obj bfields))
    (hrecs : fields.lookup "recommendations" = some (.arr recs))
    (ha : bfields.lookup "naming" = some (.num a))
    (hb : bfields.lookup "modularity" = some (.num b))
    (hc : bfields.lookup "comments" = some (.num c))
    (hd : bfields.lookup "formatting" = some (.num d))
    (he : bfields.lookup "reusability" = some (.num e))
    (hg : bfields.lookup "best_practices" = some (.num g)) :
    ∃ view, App (handleSubmit s (.ok resp)) = .ok view ∧
      (handleSubmit s (.ok resp)).result = .obj fields ∧
      breakdownShown view =
        [some (.num a, 10), some (.num b, 20), some (.num c, 20), some (.num d, 15),
         some (.num e, 15), some (.num g, 20)] ∧
      ((∀ entry ∈ breakdownShown view, withinCap entry = true) ↔
        (0 ≤ a ∧ a ≤ 10) ∧ (0 ≤ b ∧ b ≤ 20) ∧ (0 ≤ c ∧ c ≤ 20) ∧ (0 ≤ d ∧ d ≤ 15) ∧
          (0 ≤ e ∧ e ≤ 15) ∧ (0 ≤ g ∧ g ≤ 20)) := by
  have hstate := handleSubmit_success hfile hok hjson
  have hresult : (handleSubmit s (.ok resp)).result = .obj fields := by rw [hstate]
  have hshown : breakdownShown (appTree (handleSubmit s (.ok resp)).loading
      (handleSubmit s (.ok resp)).error
      (resultTree (scoreTree ((fields.lookup "overall_score").getD .undefined))
        (breakdownTree (.num a) (.num b) (.num c) (.num d) (.num e) (.num g))
        (recommendationsTree (mapFrom recommendationItem 0 recs)))) =
      [some (.num a, 10), some (.num b, 20), some (.num c, 20), some (.num d, 15),
       some (.num e, 15), some (.num g, 20)] := rfl
  refine ⟨_, App_report hresult hbd hrecs, hresult, ?_, ?_⟩
  · rw [ha, hb, hc, hd, he, hg]; exact hshown
  · rw [ha, hb, hc, hd, he, hg]
    simp only [Option.getD_some, hshown]
    simp [withinCap]

theorem breakdown_values_shown_as_received_witness :
    ∃ view, App reportShown = .ok view ∧ reportShown.result = .obj sampleFields ∧
      breakdownShown view =
        [some (.num 8, 10), some (.num 17, 20), some (.num 15, 20), some (.num 15, 15),
         some (.num 10, 15), some (.num 20, 20)] ∧
      ((∀ entry ∈ breakdownShown view, withinCap entry = true) ↔
        (0 ≤ (8 : Int) ∧ (8 : Int) ≤ 10) ∧ (0 ≤ (17 : Int) ∧ (17 : Int) ≤ 20) ∧
          (0 ≤ (15 : Int) ∧ (15 : Int) ≤ 20) ∧ (0 ≤ (15 : Int) ∧ (15 : Int) ≤ 15) ∧
          (0 ≤ (10 : Int) ∧ (10 : Int) ≤ 15) ∧ (0 ≤ (20 : Int) ∧ (20 : Int) ≤ 20)) :=
  breakdown_values_shown_as_received fileChosen sampleFile
    { ok := true, text := .ok "", json := .ok sampleReport }
    sampleFields sampleBreakdown sampleRecommendations 8 17 15 15 10 20
    rfl rfl rfl rfl rfl rfl rfl rfl rfl rfl rfl

/-! ## The submit handler -/

/-- C8: with no file selected, `handleSubmit` sends no request, sets `error` to
"Please select a file" and leaves `file`, `result` and `loading` as they were. -/
theorem submit_without_file (s : State) (fetched : Except JsError Response)
    (hfile : s.file = none) :
    (handleSubmitStart s).2 = none ∧
      handleSubmit s fetched =
        { file := s.file, result := s.result, loading := s.loading,
          error := "Please select a file" } := by
  simp [handleSubmit, handleSubmitStart, hfile]

theorem submit_without_file_witness :
    State.initial.file = none ∧ (handleSubmitStart State.initial).2 = none ∧
      handleSubmit State.initial (okResponse sampleReport) =
        { file := none, result := .null, loading := false, error := "Please select a file" } :=
  ⟨rfl, submit_without_file State.initial (okResponse sampleReport) rfl⟩

/-- C9: a submission with a file selected ends in one of two ways.  If the response
is ok and its body parses, `result` is the parsed body and `error` is empty.
Otherwise `error` is the message of the failure (the rejection of `fetch`, the
body text of a response that is not ok, or the rejection of reading or parsing the
body) and `result` is what it was before, so the result block that `App` renders
is the one rendered before the submission. -/
theorem submit_outcomes (s : State) (f : File) (fetched : Except JsError Response)
    (hfile : s.file = some f) :
    match fetched with
    | .error err =>
      (handleSubmit s fetched).error = err.message ∧ (handleSubmit s fetched).result = s.result ∧
        resultView (handleSubmit s fetched).result = resultView s.result
    | .ok resp =>
      if resp.ok = true then
        match resp.json with
        | .ok data => (handleSubmit s fetched).result = data ∧ (handleSubmit s fetched).error = ""
        | .error err =>
          (handleSubmit s fetched).error = err.message ∧
            (handleSubmit s fetched).result = s.result ∧
            resultView (handleSubmit s fetched).result = resultView s.result
      else
        match resp.text with
        | .ok text =>
          (handleSubmit s fetched).error = text ∧ (handleSubmit s fetched).result = s.result ∧
            resultView (handleSubmit s fetched).result = resultView s.result
        | .error err =>
          (handleSubmit s fetched).error = err.message ∧
            (handleSubmit s fetched).result = s.result ∧
            resultView (handleSubmit s fetched).result = resultView s.result := by
  cases fetched with
  | error err =>
    simp [handleSubmit, handleSubmitStart, handleSubmitSettle, tryBlock, hfile, bind, Except.bind]
  | ok resp =>
    obtain ⟨ok, text, json⟩ := resp
    cases ok <;> cases text <;> cases json <;>
      simp [handleSubmit, handleSubmitStart, handleSubmitSettle, tryBlock, hfile, bind,
        Except.bind, pure, Except.pure, throw, throwThe, MonadExceptOf.throw]

theorem submit_outcomes_witness :
    reportShown.file = some sampleFile ∧
      (handleSubmit reportShown (failedResponse "Unsupported file type")).error
        = "Unsupported file type" ∧
      (handleSubmit reportShown (failedResponse "Unsupported file type")).result
        = reportShown.result ∧
      resultView (handleSubmit reportShown (failedResponse "Unsupported file type")).result
        = resultView reportShown.result :=
  ⟨rfl, submit_outcomes reportShown sampleFile (failedResponse "Unsupported file type") rfl⟩

/-- A submission with a file selected, in terms of what the `try` block yields. -/
theorem handleSubmit_selected {s : State} {f : File} (fetched : Except JsError Response)
    (hfile : s.file = some f) :
    handleSubmit s fetched =
      match tryBlock fetched with
      | .ok data => { file := some f, result := data, loading := false, error := "" }
      | .error err => { file := some f, result := s.result, loading := false, error := err.message } := by
  simp only [handleSubmit, handleSubmitStart, handleSubmitSettle, hfile]
  cases tryBlock fetched <;> rfl

/-- C6: take two runs of `handleSubmit` with the same file selected and the same
report held before, started from states that may differ in `loading` and `error`
(as the start of a second analysis differs from the start of the first), and let
the backend return the same response to both.  Both runs send the same request,
which carries nothing but that file; both end in the same state, which is fixed by
the file, the report held before and the response alone (the parsed body as
`result` with an empty `error` on success, the failure message as `error` with the
old `result` otherwise, `loading` false); both render the same tree; and running
once more from the end state with the same response changes nothing. -/
theorem same_submission_same_report (s₁ s₂ : State) (f : File)
    (fetched : Except JsError Response)
    (hfile₁ : s₁.file = some f) (hfile₂ : s₂.file = some f)
    (hresult : s₁.result = s₂.result) :
    (handleSubmitStart s₁).2 = (handleSubmitStart s₂).2 ∧
      (handleSubmitStart s₁).2 =
        some { url := "http://localhost:8000/analyze-code", method := "POST",
               body := [("file", f)] } ∧
      handleSubmit s₁ fetched = handleSubmit s₂ fetched ∧
      App (handleSubmit s₁ fetched) = App (handleSubmit s₂ fetched) ∧
      handleSubmit (handleSubmit s₁ fetched) fetched = handleSubmit s₁ fetched ∧
      handleSubmit s₂ fetched =
        (match fetched with
          | .error err =>
            { file := some f, result := s₁.result, loading := false, error := err.message }
          | .ok resp =>
            if resp.ok = true then
              match resp.json with
              | .ok data => { file := some f, result := data, loading := false, error := "" }
              | .error err =>
                { file := some f, result := s₁.result, loading := false, error := err.message }
            else
              match resp.text with
              | .ok text =>
                { file := some f, result := s₁.result, loading := false, error := text }
              | .error err =>
                { file := some f, result := s₁.result, loading := false,
                  error := err.message }) := by
  have h12 : handleSubmit s₁ fetched = handleSubmit s₂ fetched := by
    rw [handleSubmit_selected fetched hfile₁, handleSubmit_selected fetched hfile₂, hresult]
  have hfile : (handleSubmit s₁ fetched).file = some f := by
    rw [handleSubmit_selected fetched hfile₁]
    cases tryBlock fetched <;> rfl
  refine ⟨?_, ?_, h12, by rw [h12], ?_, ?_⟩
  · simp [handleSubmitStart, hfile₁, hfile₂]
  · simp [handleSubmitStart, hfile₁]
  · rw [handleSubmit_selected fetched hfile, handleSubmit_selected fetched hfile₁]
    cases tryBlock fetched <;> rfl
  · rw [← h12, handleSubmit_selected fetched hfile₁]
    cases fetched with
    | error err => rfl
    | ok resp =>
      obtain ⟨ok, text, json⟩ := resp
      cases ok <;> cases text <;> cases json <;> rfl

theorem same_submission_same_report_witness :
    reportShown.file = some sampleFile ∧ afterFailure.file = some sampleFile ∧
      reportShown.result = afterFailure.result ∧
      reportShown.error = "" ∧ afterFailure.error = "Unsupported file type" ∧
      handleSubmit afterFailure (okResponse sampleReport) =
        { file := some sampleFile, result := sampleReport, loading := false, error := "" } ∧
      handleSubmit reportShown (okResponse sampleReport) =
        handleSubmit afterFailure (okResponse sampleReport) :=
  ⟨rfl, rfl, rfl, rfl, rfl,
    (same_submission_same_report reportShown afterFailure sampleFile (okResponse sampleReport)
      rfl rfl rfl).2.2.2.2.2,
    (same_submission_same_report reportShown afterFailure sampleFile (okResponse sampleReport)
      rfl rfl rfl).2.2.1⟩

/-! ## The loading flag -/

/-- The invariant of a session: `loading` is set exactly while a request is in
flight, and at most one request is in flight. -/
theorem step_invariant {σ next : Session} (event : Event)
    (hinv : (σ.state.loading = true ↔ σ.inFlight ≠ []) ∧ σ.inFlight.length ≤ 1)
    (hstep : σ.step event = some next) :
    (next.state.loading = true ↔ next.inFlight ≠ []) ∧ next.inFlight.length ≤ 1 := by
  obtain ⟨⟨file, result, loading, error⟩, inFlight⟩ := σ
  cases event with
  | fileChange files =>
    simp only [Session.step, Option.some.injEq] at hstep
    subst hstep
    exact hinv
  | submit =>
    cases loading with
    | true => simp [Session.step, submitEnabled, submitButton, VNode.prop, List.lookup] at hstep
    | false =>
      have hempty : inFlight = [] := by
        by_contra hne
        exact Bool.false_ne_true (hinv.1.mpr hne)
      subst hempty
      cases file with
      | none =>
        simp [Session.step, submitEnabled, submitButton, VNode.prop, List.lookup,
          handleSubmitStart] at hstep
        subst hstep
        simp
      | some f =>
        simp [Session.step, submitEnabled, submitButton, VNode.prop, List.lookup,
          handleSubmitStart] at hstep
        subst hstep
        simp
  | settle fetched =>
    cases inFlight with
    | nil => simp [Session.step] at hstep
    | cons request rest =>
      simp only [Session.step, Option.some.injEq] at hstep
      subst hstep
      have hrest : rest = [] := by
        have := hinv.2
        simp at this
        exact this
      subst hrest
      simp [handleSubmitSettle]

theorem run_invariant (events : List Event) {σ final : Session}
    (hinv : (σ.state.loading = true ↔ σ.inFlight ≠ []) ∧ σ.inFlight.length ≤ 1)
    (hrun : σ.run events = some final) :
    (final.state.loading = true ↔ final.inFlight ≠ []) ∧ final.inFlight.length ≤ 1 := by
  induction events generalizing σ with
  | nil =>
    simp only [Session.run, Option.some.injEq] at hrun
    subst hrun
    exact hinv
  | cons event events ih =>
    simp only [Session.run] at hrun
    cases hstep : σ.step event with
    | none => rw [hstep] at hrun; cases hrun
    | some next =>
      rw [hstep] at hrun
      exact ih (step_invariant event hinv hstep) hrun

/-- C10: in every state a session can reach, `loading` is true exactly while a
request is in flight (so it is false whenever none is), and at most one request is
in flight.  From such a state, `handleSubmit` sets `loading` when it sends a
request (a file is selected), and `loading` is false once the request has settled,
whatever it settled to.  The rendered submit button carries `disabled = loading`. -/
theorem loading_tracks_request (events : List Event) (σ : Session)
    (fetched : Except JsError Response) (child : VNode)
    (hrun : Session.initial.run events = some σ) :
    (σ.state.loading = true ↔ σ.inFlight ≠ []) ∧ σ.inFlight.length ≤ 1 ∧
      (handleSubmitStart σ.state).1.loading = (σ.state.file.isSome || σ.state.loading) ∧
      (handleSubmitStart σ.state).2.isSome = σ.state.file.isSome ∧
      (handleSubmitSettle σ.state fetched).loading = false ∧
      (handleSubmit σ.state fetched).loading = (σ.state.loading && !σ.state.file.isSome) ∧
      (submitButtonOf (appTree σ.state.loading σ.state.error child)).bind
          (fun button => button.prop "disabled") = some (.bool σ.state.loading) ∧
      submitEnabled σ.state = !σ.state.loading := by
  have hinv := run_invariant events
    (show (Session.initial.state.loading = true ↔ Session.initial.inFlight ≠ []) ∧
      Session.initial.inFlight.length ≤ 1 by simp [Session.initial, State.initial]) hrun
  refine ⟨hinv.1, hinv.2, ?_, ?_, rfl, ?_, rfl, ?_⟩
  · cases h : σ.state.file <;> simp [handleSubmitStart, h]
  · cases h : σ.state.file <;> simp [handleSubmitStart, h]
  · cases h : σ.state.file <;> simp [handleSubmit, handleSubmitStart, handleSubmitSettle, h]
  · unfold submitEnabled
    cases σ.state.loading <;> rfl

theorem loading_tracks_request_witness :
    Session.initial.run [.fileChange [sampleFile], .submit] =
        some { state := { file := some sampleFile, result := .null, loading := true, error := "" },
               inFlight := [{ url := "http://localhost:8000/analyze-code", method := "POST",
                              body := [("file", sampleFile)] }] } ∧
      (handleSubmitSettle
        { file := some sampleFile, result := .null, loading := true, error := "" }
        (failedResponse "Unsupported file type")).loading = false :=
  ⟨rfl, (loading_tracks_request [.fileChange [sampleFile], .submit] _
    (failedResponse "Unsupported file type") (.text "") rfl).2.2.2.2.1⟩

end CarbonCrunch
